import Mathlib

/-!
Verification of the reliant-type security-primitive validators
(`src/core/schema/mode/interfaces/validators/mods/securityValidator.ts`).

The TypeScript source is shallowly embedded: JavaScript values become the
inductive `Value`, each validator becomes a total Lean function producing a
`SchemaValidationResult`, and the mutating `result.errors.push` /
`result.success = false` idiom becomes the `addErrorIf` / `addWarnIf`
combinators.  JavaScript string lengths are modelled as character counts
(all inputs of interest are ASCII, where the two notions agree).

Helper modules that are not part of the provided source tree
(`ErrorHandler`, `SECURITY_CONSTANTS`, `securityHelpers`) are modelled from
the specification; each such definition carries a doc comment starting with
`Modelled from the spec:`.
-/

/-- Error taxonomy. The constructors up to `SECURITY_VIOLATION` appear
literally at call sites in the source; `INVALID_FORMAT`, `TIMEOUT` and
`TYPE_MISMATCH` are modelled from the specification taxonomy (the enum
declaration itself lives outside the provided sources). -/
inductive ErrorCode where
  | TYPE_MISMATCH
  | STRING_TOO_LONG
  | STRING_TOO_SHORT
  | INVALID_STRING_FORMAT
  | PATTERN_MISMATCH
  | INVALID_JSON
  | SECURITY_VIOLATION
  | UNKNOWN_ERROR
  | INVALID_FORMAT
  | TIMEOUT
deriving DecidableEq, Repr

/-- JavaScript runtime values, as a tree (the inductive embedding cannot
represent cyclic heaps; the cyclic-graph scanner is modelled separately on
an explicit graph, see `ObjGraph`).  Numbers are modelled as integers:
no claim depends on fractional values. -/
inductive Value where
  | vStr (s : String)
  | vNum (n : Int)
  | vBool (b : Bool)
  | vNull
  | vUndef
  | vArr (elems : List Value)
  | vObj (fields : List (String × Value))

/-- A validation error: path, message, code and a snapshot of the offending
value, mirroring `ErrorHandler`'s error records. -/
structure ValidationError where
  path : List String
  message : String
  code : ErrorCode
  offending : Option Value := none

/-- The `SchemaValidationResult` shape returned by every validator. -/
structure SchemaValidationResult where
  success : Bool
  errors : List ValidationError
  warnings : List String
  data : Value

/-- Well-formedness of a result: a failed validation carries at least one
error.  Totality of each validator is witnessed by its embedding being a
total Lean function into `SchemaValidationResult`; this predicate captures
the remaining content of the result-shape contract. -/
def wfResult (r : SchemaValidationResult) : Prop :=
  r.success = false → r.errors ≠ []

/-! ### String helpers (JavaScript semantics over ASCII) -/

def isPrefixL : List Char → List Char → Bool
  | [], _ => true
  | _ :: _, [] => false
  | a :: as, b :: bs => a = b && isPrefixL as bs

def isInfixL (p : List Char) : List Char → Bool
  | [] => p.isEmpty
  | x :: xs => isPrefixL p (x :: xs) || isInfixL p xs

def strStartsWith (s pre : String) : Bool := isPrefixL pre.toList s.toList

def strEndsWith (s suf : String) : Bool :=
  isPrefixL suf.toList.reverse s.toList.reverse

def containsSubstr (s pat : String) : Bool := isInfixL pat.toList s.toList

def jsLength (s : String) : Nat := s.toList.length

def strContainsChar (s : String) (c : Char) : Bool := s.toList.contains c

def splitAux (c : Char) : List Char → List Char → List String
  | [], acc => [String.mk acc.reverse]
  | x :: xs, acc =>
      if x = c then String.mk acc.reverse :: splitAux c xs []
      else splitAux c xs (x :: acc)

/-- `s.split(c)` with JavaScript semantics (`"".split(c) = [""]`,
trailing separators produce trailing empty segments). -/
def splitOnCharJs (c : Char) (s : String) : List String := splitAux c s.toList []

def isJsWS (c : Char) : Bool := c = ' ' || c = '\t' || c = '\n' || c = '\r'

/-- `String.prototype.trim`, over the ASCII whitespace subset. -/
def jsTrim (s : String) : String :=
  String.mk (((s.toList.dropWhile isJsWS).reverse.dropWhile isJsWS).reverse)

def lowerChar (c : Char) : Char :=
  if 'A' ≤ c ∧ c ≤ 'Z' then Char.ofNat (c.toNat + 32) else c

/-- `String.prototype.toLowerCase`, over ASCII. -/
def jsToLower (s : String) : String := String.mk (s.toList.map lowerChar)

def digitsToNat (l : List Char) : Nat :=
  l.foldl (fun a c => a * 10 + (c.toNat - 48)) 0

/-- `Number(p)` restricted to nonempty all-digit strings; `none` plays the
role of `NaN`. -/
def parseNatAll (s : String) : Option Nat :=
  let l := s.toList
  if l ≠ [] ∧ l.all Char.isDigit then some (digitsToNat l) else none

/-! ### Modelled constants and error constructors -/

/-- Modelled from the spec: the `SECURITY_CONSTANTS.DANGEROUS_PROPERTIES`
denylist (the constants module is outside the provided sources); the spec
names `__proto__`, `constructor`, `prototype`. -/
def DANGEROUS_PROPERTIES : List String := ["__proto__", "constructor", "prototype"]

/-- Modelled from the spec: `SECURITY_CONSTANTS.MAX_TEXT_LENGTH` (value not
present in the provided sources; claims never depend on it). -/
def MAX_TEXT_LENGTH : Nat := 100000

/-- Modelled from the spec: `SECURITY_CONSTANTS.MAX_JSON_SIZE`. -/
def MAX_JSON_SIZE : Nat := 1000000

/-- Modelled from the spec: `MAX_OBJECT_DEPTH` from the validation-constants
module. -/
def MAX_OBJECT_DEPTH : Nat := 10

/-- Modelled from the spec: the XSS regex set; kept abstract as substring
tests, no claim depends on its contents. -/
def XSS_PATTERNS : List (String → Bool) := [fun s => containsSubstr s "<script"]

/-- Modelled from the spec: the SQL-pattern set. -/
def SQL_PATTERNS : List (String → Bool) := [fun s => containsSubstr s "SELECT "]

/-- Modelled from the spec: the LDAP-injection pattern set. -/
def LDAP_PATTERNS : List (String → Bool) := [fun s => containsSubstr s "(|"]

/-- Modelled from the spec: the command-injection pattern set. -/
def COMMAND_INJECTION_PATTERNS : List (String → Bool) :=
  [fun s => containsSubstr s "$("]

/-- Modelled from the spec: `ErrorHandler.createValidationError` builds an
error record from path, message and code. -/
def createValidationError (path : List String) (msg : String)
    (code : ErrorCode) : ValidationError :=
  { path := path, message := msg, code := code }

/-- Modelled from the spec: `ErrorHandler.createTypeError` reports a
`TypeMismatch` for an unexpected top-level type. -/
def createTypeError (path : List String) (expected : String)
    (value : Value) : ValidationError :=
  { path := path, message := "Expected " ++ expected, code := ErrorCode.TYPE_MISMATCH,
    offending := some value }

/-- Modelled from the spec: `ErrorHandler.createStringError` carries the
given code and a snapshot of the offending value. -/
def createStringError (path : List String) (msg : String) (value : Value)
    (code : ErrorCode) : ValidationError :=
  { path := path, message := msg, code := code, offending := some value }

/-- Modelled from the spec: `ErrorHandler.createSimpleError` (used by
`validateIp` for non-string input). -/
def createSimpleError (msg : String) (path : List String)
    (_expected : String) : ValidationError :=
  { path := path, message := msg, code := ErrorCode.TYPE_MISMATCH }

/-! ### Result combinators

The source mutates one `result` record; every `if (cond) { success=false;
errors.push(e) }` block becomes `addErrorIf cond e`, every warning push
becomes `addWarnIf`. -/

def addErrorIf (cond : Bool) (e : ValidationError)
    (r : SchemaValidationResult) : SchemaValidationResult :=
  if cond then { r with success := false, errors := r.errors ++ [e] } else r

def addWarnIf (cond : Bool) (w : String)
    (r : SchemaValidationResult) : SchemaValidationResult :=
  if cond then { r with warnings := r.warnings ++ [w] } else r

def setData (d : Value) (r : SchemaValidationResult) : SchemaValidationResult :=
  { r with data := d }

/-- Merging a sub-result, as in `result.success = result.success && sub.success;
errors.push(...sub.errors); warnings.push(...sub.warnings)`. -/
def mergeChecks (s2 : Bool) (es : List ValidationError) (ws : List String)
    (r : SchemaValidationResult) : SchemaValidationResult :=
  { r with success := r.success && s2, errors := r.errors ++ es,
           warnings := r.warnings ++ ws }

theorem wf_addErrorIf (c : Bool) (e : ValidationError) (r : SchemaValidationResult)
    (h : wfResult r) : wfResult (addErrorIf c e r) := by
  unfold addErrorIf wfResult at *
  split
  · intro _; simp
  · exact h

theorem wf_addWarnIf (c : Bool) (w : String) (r : SchemaValidationResult)
    (h : wfResult r) : wfResult (addWarnIf c w r) := by
  unfold addWarnIf wfResult at *
  split
  · intro hs; exact h hs
  · exact h

theorem wf_setData (d : Value) (r : SchemaValidationResult)
    (h : wfResult r) : wfResult (setData d r) := by
  unfold setData wfResult at *; exact h

theorem wf_mergeChecks (s2 : Bool) (es : List ValidationError) (ws : List String)
    (r : SchemaValidationResult) (h : wfResult r)
    (h2 : s2 = false → es ≠ []) : wfResult (mergeChecks s2 es ws r) := by
  unfold mergeChecks wfResult at *
  intro hs
  simp only at hs
  rcases Bool.and_eq_false_iff.mp hs with h3 | h3
  · have := h h3
    simp [this]
  · have := h2 h3
    simp [this]

theorem wf_of_success_true (r : SchemaValidationResult)
    (h : r.success = true) : wfResult r := by
  unfold wfResult; intro hs; rw [h] at hs; cases hs

theorem wf_of_errors_ne (r : SchemaValidationResult)
    (h : r.errors ≠ []) : wfResult r := fun _ => h

theorem success_false_addErrorIf (c : Bool) (e : ValidationError)
    (r : SchemaValidationResult) (h : r.success = false) :
    (addErrorIf c e r).success = false := by
  unfold addErrorIf; split <;> simp [h]

theorem success_false_addWarnIf (c : Bool) (w : String)
    (r : SchemaValidationResult) (h : r.success = false) :
    (addWarnIf c w r).success = false := by
  unfold addWarnIf; split <;> simp [h]

theorem success_false_setData (d : Value) (r : SchemaValidationResult)
    (h : r.success = false) : (setData d r).success = false := by
  unfold setData; simp [h]

theorem mem_errors_addErrorIf (c : Bool) (e e0 : ValidationError)
    (r : SchemaValidationResult) (h : e0 ∈ r.errors) :
    e0 ∈ (addErrorIf c e r).errors := by
  unfold addErrorIf; split <;> simp [h]

theorem mem_errors_addWarnIf (c : Bool) (w : String) (e0 : ValidationError)
    (r : SchemaValidationResult) (h : e0 ∈ r.errors) :
    e0 ∈ (addWarnIf c w r).errors := by
  unfold addWarnIf; split <;> simp [h]

theorem mem_errors_setData (d : Value) (e0 : ValidationError)
    (r : SchemaValidationResult) (h : e0 ∈ r.errors) :
    e0 ∈ (setData d r).errors := by
  unfold setData; simpa using h

theorem mem_errors_added (e : ValidationError) (r : SchemaValidationResult) :
    e ∈ (addErrorIf true e r).errors := by
  unfold addErrorIf; simp

/-! ### Recursive scans over tree-shaped values

`hasDangerousProperties` carries a `WeakSet` of visited heap nodes.  On the
tree-shaped values of the inductive embedding every subterm is a distinct
heap node, so the visited set never fires and the scan is plain structural
recursion (arrays are `typeof "object"` in JavaScript, so the scan descends
into them; their numeric keys are never denylisted).  The cyclic-heap
behavior of the same function is modelled separately on `ObjGraph` below. -/

mutual
def hasDangerousPropsV : Value → Bool
  | .vObj fields =>
      fields.any (fun kv => DANGEROUS_PROPERTIES.contains kv.1)
      || dangerFields fields
  | .vArr elems => dangerList elems
  | _ => false
def dangerFields : List (String × Value) → Bool
  | [] => false
  | (_, v) :: rest => hasDangerousPropsV v || dangerFields rest
def dangerList : List Value → Bool
  | [] => false
  | v :: rest => hasDangerousPropsV v || dangerList rest
end

mutual
def depthOf : Value → Nat
  | .vArr es => 1 + depthList es
  | .vObj fs => 1 + depthFields fs
  | _ => 1
def depthList : List Value → Nat
  | [] => 0
  | v :: rest => max (depthOf v) (depthList rest)
def depthFields : List (String × Value) → Nat
  | [] => 0
  | (_, v) :: rest => max (depthOf v) (depthFields rest)
end

mutual
def totalKeys : Value → Nat
  | .vObj fs => fs.length + totalKeysFields fs
  | .vArr es => totalKeysList es
  | _ => 0
def totalKeysFields : List (String × Value) → Nat
  | [] => 0
  | (_, v) :: rest => totalKeys v + totalKeysFields rest
def totalKeysList : List Value → Nat
  | [] => 0
  | v :: rest => totalKeys v + totalKeysList rest
end

/-- The JavaScript `typeof`-style type name used by the JSON deep checks. -/
def typeNameOf : Value → String
  | .vStr _ => "string"
  | .vNum _ => "number"
  | .vBool _ => "boolean"
  | .vNull => "null"
  | .vUndef => "undefined"
  | .vArr _ => "array"
  | .vObj _ => "object"

/-- Fresh result record, as built at the top of every validator. -/
def initResult (v : Value) : SchemaValidationResult :=
  { success := true, errors := [], warnings := [], data := v }

theorem wf_initResult (v : Value) : wfResult (initResult v) :=
  wf_of_success_true _ rfl

/-! ### Text validator (`SecurityValidators.validateTextSync` / `validateText`) -/

/-- Modelled: the runtime `String.prototype.normalize("NFC")`.  It is
external to the repository and treated as the identity transformation; in
the source the normalization branch only fires when the normalized string
differs, and no claim settled here depends on that branch. -/
def nfcNormalize (s : String) : String := s

inductive TextEncoding where
  | utf8
  | ascii
  | latin1
deriving DecidableEq

/-- Options of `validateText`, with the source defaults.  `maxLines = none`
plays the role of `Infinity`; regexes are modelled as boolean tests.
The `timeout`/`enableMetrics` options only drive the async wrapper and the
metrics recorder and are modelled by the wrapper's `timedOut` flag. -/
structure TextOptions where
  minLength : Nat := 0
  maxLength : Nat := MAX_TEXT_LENGTH
  allowEmpty : Bool := true
  trimWhitespace : Bool := false
  allowedCharacters : Option (String → Bool) := none
  forbiddenPatterns : List (String → Bool) := []
  encoding : TextEncoding := .utf8
  preventXSS : Bool := true
  preventSQLInjection : Bool := true
  preventLDAPInjection : Bool := false
  preventCommandInjection : Bool := false
  normalizeUnicode : Bool := false
  maxLines : Option Nat := none
  requireAlphanumeric : Bool := false
  allowHTML : Bool := false
  stripHTML : Bool := false

def isCtrlChar (c : Char) : Bool :=
  c.toNat ≤ 8 || c.toNat = 11 || c.toNat = 12 ||
  (14 ≤ c.toNat && c.toNat ≤ 31) || (127 ≤ c.toNat && c.toNat ≤ 159)

def asciiOnly (s : String) : Bool := s.toList.all (fun c => c.toNat ≤ 127)

def alnumSpaceOnly (s : String) : Bool :=
  s.toList.all (fun c => c.isAlphanum || isJsWS c)

/-- The trim and Unicode-normalization stages of `validateTextSync`
(lines 244-266 of the source): they rewrite `text`, update `result.data`
and append their explanatory warnings, leaving `success`/`errors` alone. -/
def textTrimStage (s : String) (o : TextOptions) : String × SchemaValidationResult :=
  if o.trimWhitespace && (jsTrim s != s) then
    (jsTrim s, { initResult (.vStr s) with
                 data := .vStr (jsTrim s)
                 warnings := ["Whitespace trimmed from text"] })
  else (s, initResult (.vStr s))

def textBase (s : String) (o : TextOptions) : String × SchemaValidationResult :=
  if o.normalizeUnicode && (nfcNormalize (textTrimStage s o).1 != (textTrimStage s o).1) then
    (nfcNormalize (textTrimStage s o).1,
     { (textTrimStage s o).2 with
       data := .vStr (nfcNormalize (textTrimStage s o).1)
       warnings := (textTrimStage s o).2.warnings ++ ["Unicode characters normalized"] })
  else textTrimStage s o

theorem textTrimStage_success (s : String) (o : TextOptions) :
    (textTrimStage s o).2.success = true := by
  unfold textTrimStage
  split <;> rfl

theorem textBase_success (s : String) (o : TextOptions) :
    (textBase s o).2.success = true := by
  unfold textBase
  split
  · exact textTrimStage_success s o
  · exact textTrimStage_success s o

/-- `SecurityValidators.validateTextSync`: type check, max-length
short-circuit, trim/normalize, empty-string short-circuit, then the
accumulating pipeline in source order. -/
def validateTextSync (value : Value) (o : TextOptions) : SchemaValidationResult :=
  match value with
  | .vStr s =>
    if jsLength s > o.maxLength then
      { success := false,
        errors := [createStringError []
          ("Text exceeds maximum length of " ++ toString o.maxLength ++ " characters")
          (.vStr s) ErrorCode.STRING_TOO_LONG],
        warnings := [], data := .vStr s }
    else
      let p := textBase s o
      let text := p.1
      if !o.allowEmpty && (jsLength text == 0) then
        { p.2 with
          success := false
          errors := p.2.errors ++ [createStringError [] "Text cannot be empty"
            (.vStr s) ErrorCode.STRING_TOO_SHORT] }
      else
        p.2
        |> addErrorIf (jsLength text < o.minLength)
            (createStringError []
              ("Text must be at least " ++ toString o.minLength ++ " characters long")
              (.vStr s) ErrorCode.STRING_TOO_SHORT)
        |> addErrorIf (match o.maxLines with
              | some m => (splitOnCharJs '\n' text).length > m
              | none => false)
            (createStringError [] "Text cannot exceed the maximum line count"
              (.vStr s) ErrorCode.STRING_TOO_LONG)
        |> addErrorIf (o.encoding == .ascii && !asciiOnly text)
            (createStringError [] "Text contains non-ASCII characters"
              (.vStr s) ErrorCode.INVALID_STRING_FORMAT)
        |> addErrorIf (o.requireAlphanumeric && !alnumSpaceOnly text)
            (createStringError []
              "Text must contain only alphanumeric characters and spaces"
              (.vStr s) ErrorCode.INVALID_STRING_FORMAT)
        |> addErrorIf (match o.allowedCharacters with
              | some p2 => !(p2 text)
              | none => false)
            (createStringError [] "Text contains disallowed characters"
              (.vStr s) ErrorCode.INVALID_STRING_FORMAT)
        |> addErrorIf (o.forbiddenPatterns.any (fun p2 => p2 text))
            (createStringError [] "Text contains forbidden pattern"
              (.vStr s) ErrorCode.PATTERN_MISMATCH)
        |> addErrorIf (o.preventXSS && !o.allowHTML
              && XSS_PATTERNS.any (fun p2 => p2 text))
            (createStringError [] "Text contains potentially malicious content (XSS)"
              (.vStr s) ErrorCode.INVALID_STRING_FORMAT)
        |> addErrorIf (o.preventXSS && !o.allowHTML
              && (containsSubstr text "javascript:" || containsSubstr text "data:text/html"))
            (createStringError [] "Text contains dangerous URI schemes"
              (.vStr s) ErrorCode.INVALID_STRING_FORMAT)
        |> addWarnIf (o.preventSQLInjection && SQL_PATTERNS.any (fun p2 => p2 text))
            "Text contains SQL-like patterns"
        |> addErrorIf (o.preventLDAPInjection && LDAP_PATTERNS.any (fun p2 => p2 text))
            (createStringError [] "Text contains LDAP injection patterns"
              (.vStr s) ErrorCode.INVALID_STRING_FORMAT)
        |> addErrorIf (o.preventCommandInjection
              && COMMAND_INJECTION_PATTERNS.any (fun p2 => p2 text))
            (createStringError [] "Text contains command injection patterns"
              (.vStr s) ErrorCode.INVALID_STRING_FORMAT)
        |> addWarnIf (text.toList.any isCtrlChar) "Text contains control characters"
        |> addErrorIf (strContainsChar text (Char.ofNat 0))
            (createStringError [] "Text contains null bytes"
              (.vStr s) ErrorCode.INVALID_STRING_FORMAT)
  | v =>
    { success := false, errors := [createTypeError [] "string" v],
      warnings := [], data := v }

/-- `SecurityValidators.validateText`: the async wrapper races the sync body
against a timer; `timedOut` records whether the race was lost, in which case
the catch-branch failure result is returned. -/
def validateText (timedOut : Bool) (value : Value) (o : TextOptions) :
    SchemaValidationResult :=
  if timedOut then
    { success := false,
      errors := [createValidationError [] "Validation timeout"
        ErrorCode.UNKNOWN_ERROR],
      warnings := [], data := value }
  else validateTextSync value o

theorem wf_validateTextSync (value : Value) (o : TextOptions) :
    wfResult (validateTextSync value o) := by
  cases value with
  | vStr s =>
      simp only [validateTextSync]
      split
      · exact wf_of_errors_ne _ (by simp)
      · split
        · exact wf_of_errors_ne _ (by simp)
        · apply wf_addErrorIf
          apply wf_addWarnIf
          apply wf_addErrorIf
          apply wf_addErrorIf
          apply wf_addWarnIf
          apply wf_addErrorIf
          apply wf_addErrorIf
          apply wf_addErrorIf
          apply wf_addErrorIf
          apply wf_addErrorIf
          apply wf_addErrorIf
          apply wf_addErrorIf
          apply wf_addErrorIf
          exact wf_of_success_true _ (textBase_success s o)
  | vNum n => exact wf_of_errors_ne _ (by simp [validateTextSync])
  | vBool b => exact wf_of_errors_ne _ (by simp [validateTextSync])
  | vNull => exact wf_of_errors_ne _ (by simp [validateTextSync])
  | vUndef => exact wf_of_errors_ne _ (by simp [validateTextSync])
  | vArr es => exact wf_of_errors_ne _ (by simp [validateTextSync])
  | vObj fs => exact wf_of_errors_ne _ (by simp [validateTextSync])

theorem wf_validateText (timedOut : Bool) (value : Value) (o : TextOptions) :
    wfResult (validateText timedOut value o) := by
  unfold validateText
  split
  · exact wf_of_errors_ne _ (by simp)
  · exact wf_validateTextSync value o

/-! ### Email validator (`SecurityValidators.validateEmail`) -/

/-- Options of `validateEmail`, with the source defaults (`requireMX` is
declared but unused by the body, as in the source). -/
structure EmailOptions where
  allowInternational : Bool := true
  maxLength : Nat := 254
  allowedDomains : List String := []
  blockedDomains : List String := []
  requireMX : Bool := false
  strict : Bool := true

/-- The character class of the strict local-part regex
`/^[a-zA-Z0-9._+-]+$/` — note it admits the plus sign. -/
def strictLocalChar (c : Char) : Bool :=
  c.isAlphanum || c = '.' || c = '_' || c = '+' || c = '-'

def strictLocalOk (l : String) : Bool :=
  !l.toList.isEmpty && l.toList.all strictLocalChar

/-- The atom character class of the RFC-shaped non-strict local-part regex
(alphanumerics and the RFC 5322 special characters, excluding the dot). -/
def rfcAtomChar (c : Char) : Bool :=
  c.isAlphanum || c = '!' || c = '#' || c = '$' || c = '%' || c = '&' ||
  c = Char.ofNat 39 || c = '*' || c = '+' || c = '/' || c = '=' || c = '?' ||
  c = '^' || c = '_' || c = Char.ofNat 96 || c = Char.ofNat 123 || c = '|' ||
  c = Char.ofNat 125 || c = '~' || c = '-'

/-- The non-strict regex `atom("." atom)*`: equivalently, every
dot-separated segment is a nonempty atom. -/
def rfcLocalOk (l : String) : Bool :=
  (splitOnCharJs '.' l).all (fun p => !p.toList.isEmpty && p.toList.all rfcAtomChar)

def domainStrictChar (c : Char) : Bool := c.isAlphanum || c = '.' || c = '-'

/-- The strict domain regex `/^[a-zA-Z0-9.-]+\.[a-zA-Z]{2,}$/`: since the
trailing TLD block excludes dots, the regex matches exactly when the final
dot splits the string into a nonempty `[a-zA-Z0-9.-]` body and an alphabetic
TLD of length at least 2. -/
def strictDomainOk (d : String) : Bool :=
  let parts := splitOnCharJs '.' d
  decide (parts.length ≥ 2) && decide (2 ≤ jsLength (parts.getLastD "")) &&
  (parts.getLastD "").toList.all Char.isAlpha &&
  parts.dropLast != [""] &&
  parts.dropLast.all (fun p => p.toList.all domainStrictChar)

/-- One label of the non-strict domain regex
`[a-zA-Z0-9](?:[a-zA-Z0-9-]{0,61}[a-zA-Z0-9])?`. -/
def domainLabelOk (p : String) : Bool :=
  !p.toList.isEmpty && decide (p.toList.length ≤ 63) &&
  p.toList.all (fun c => c.isAlphanum || c = '-') &&
  (match p.toList.head? with | some c => c.isAlphanum | none => false) &&
  (match p.toList.getLast? with | some c => c.isAlphanum | none => false)

def labelDomainOk (d : String) : Bool := (splitOnCharJs '.' d).all domainLabelOk

/-- The prohibited-character probe `/[<>()[\]\\,;:\s@"]/`. -/
def emailInvalidChar (c : Char) : Bool :=
  c = '<' || c = '>' || c = '(' || c = ')' || c = '[' || c = ']' || c = '\\' ||
  c = ',' || c = ';' || c = ':' || isJsWS c || c = '@' || c = '"'

/-- The disposable-address heuristic `/test|temp|fake|spam|noreply/i`. -/
def emailSuspicious (e : String) : Bool :=
  containsSubstr (jsToLower e) "test" || containsSubstr (jsToLower e) "temp" ||
  containsSubstr (jsToLower e) "fake" || containsSubstr (jsToLower e) "spam" ||
  containsSubstr (jsToLower e) "noreply"

/-- `value.trim().toLowerCase()`, the first normalization of the validator. -/
def emailNorm (s : String) : String := jsToLower (jsTrim s)

def emailAtCount (e : String) : Nat := (e.toList.filter (fun c => c = '@')).length

def emailLocalPart (e : String) : String := (splitOnCharJs '@' e).getD 0 ""

def emailDomainPart (e : String) : String := (splitOnCharJs '@' e).getD 1 ""

/-- The accumulating part of `validateEmail` (source lines 1318-1517),
entered once the early-return guards have passed; `value` is the caller's
original value, `email` the trimmed lower-cased string, `locPart`/`domain`
its two parts. Ends by overwriting `data` with the cleaned email — on
success and failure alike. -/
def emailChecks (o : EmailOptions) (value : Value) (email locPart domain : String) :
    SchemaValidationResult :=
  initResult value
  |> addErrorIf (jsLength locPart > 64)
      (createValidationError [] "Email local part exceeds 64 characters"
        ErrorCode.SECURITY_VIOLATION)
  |> addErrorIf (strContainsChar locPart '+')
      (createValidationError [] "Plus addressing (+ symbols) is not allowed"
        ErrorCode.SECURITY_VIOLATION)
  |> addErrorIf (if o.strict then !strictLocalOk locPart else !rfcLocalOk locPart)
      (createValidationError [] "Email local part contains invalid characters"
        ErrorCode.SECURITY_VIOLATION)
  |> addErrorIf (containsSubstr locPart "..")
      (createValidationError [] "Email local part cannot contain consecutive dots"
        ErrorCode.SECURITY_VIOLATION)
  |> addErrorIf (strStartsWith locPart "." || strEndsWith locPart ".")
      (createValidationError [] "Email local part cannot start or end with a dot"
        ErrorCode.SECURITY_VIOLATION)
  |> addErrorIf (jsLength domain > 255)
      (createValidationError [] "Email domain exceeds 255 characters"
        ErrorCode.SECURITY_VIOLATION)
  |> addErrorIf (o.strict && !strictDomainOk domain)
      (createValidationError []
        "Invalid domain format - must contain at least one dot and valid TLD"
        ErrorCode.SECURITY_VIOLATION)
  |> addErrorIf (!o.strict && !labelDomainOk domain)
      (createValidationError [] "Invalid domain format"
        ErrorCode.SECURITY_VIOLATION)
  |> addErrorIf (containsSubstr domain "..")
      (createValidationError [] "Domain cannot contain consecutive dots"
        ErrorCode.SECURITY_VIOLATION)
  |> addErrorIf (strStartsWith domain "." || strEndsWith domain ".")
      (createValidationError [] "Domain cannot start or end with a dot"
        ErrorCode.SECURITY_VIOLATION)
  |> addErrorIf (!o.allowInternational && !asciiOnly domain)
      (createValidationError [] "International domain names are not allowed"
        ErrorCode.SECURITY_VIOLATION)
  |> addErrorIf (!o.allowedDomains.isEmpty && !o.allowedDomains.contains domain)
      (createValidationError [] "Email domain is not in the allowed list"
        ErrorCode.SECURITY_VIOLATION)
  |> addErrorIf (o.blockedDomains.contains domain)
      (createValidationError [] "Email domain is blocked"
        ErrorCode.SECURITY_VIOLATION)
  |> addErrorIf (locPart.toList.any emailInvalidChar)
      (createValidationError []
        "Email local part contains prohibited characters (spaces, quotes, brackets, etc.)"
        ErrorCode.SECURITY_VIOLATION)
  |> addWarnIf (emailSuspicious email) "Email appears to be temporary or test address"
  |> setData (.vStr email)

/-- `SecurityValidators.validateEmail`: type check, trim+lower-case, then
length / at-count / empty-part early returns (which leave `data` as the
original input), then the accumulating `emailChecks` pipeline. -/
def validateEmail (value : Value) (o : EmailOptions) : SchemaValidationResult :=
  match value with
  | .vStr s =>
    if jsLength (emailNorm s) > o.maxLength then
      { success := false
        errors := [createStringError []
          ("Email exceeds maximum length of " ++ toString o.maxLength ++ " characters")
          (.vStr s) ErrorCode.STRING_TOO_LONG]
        warnings := [], data := .vStr s }
    else if emailAtCount (emailNorm s) != 1 then
      { success := false
        errors := [createValidationError [] "Email must contain exactly one @ symbol"
          ErrorCode.SECURITY_VIOLATION]
        warnings := [], data := .vStr s }
    else if emailLocalPart (emailNorm s) == "" || emailDomainPart (emailNorm s) == "" then
      { success := false
        errors := [createValidationError []
          "Email local part and domain cannot be empty" ErrorCode.SECURITY_VIOLATION]
        warnings := [], data := .vStr s }
    else
      emailChecks o (.vStr s) (emailNorm s)
        (emailLocalPart (emailNorm s)) (emailDomainPart (emailNorm s))
  | v =>
    { success := false, errors := [createTypeError [] "string" v],
      warnings := [], data := v }

theorem success_false_addErrorIf_true (e : ValidationError)
    (r : SchemaValidationResult) (c : Bool) (h : c = true) :
    (addErrorIf c e r).success = false := by
  unfold addErrorIf; simp [h]

theorem wf_emailChecks (o : EmailOptions) (value : Value)
    (email locPart domain : String) :
    wfResult (emailChecks o value email locPart domain) := by
  unfold emailChecks
  apply wf_setData
  apply wf_addWarnIf
  apply wf_addErrorIf
  apply wf_addErrorIf
  apply wf_addErrorIf
  apply wf_addErrorIf
  apply wf_addErrorIf
  apply wf_addErrorIf
  apply wf_addErrorIf
  apply wf_addErrorIf
  apply wf_addErrorIf
  apply wf_addErrorIf
  apply wf_addErrorIf
  apply wf_addErrorIf
  apply wf_addErrorIf
  apply wf_addErrorIf
  exact wf_initResult value

theorem wf_validateEmail (value : Value) (o : EmailOptions) :
    wfResult (validateEmail value o) := by
  cases value with
  | vStr s =>
      simp only [validateEmail]
      split
      · exact wf_of_errors_ne _ (by simp)
      · split
        · exact wf_of_errors_ne _ (by simp)
        · split
          · exact wf_of_errors_ne _ (by simp)
          · exact wf_emailChecks _ _ _ _ _
  | vNum n => exact wf_of_errors_ne _ (by simp [validateEmail])
  | vBool b => exact wf_of_errors_ne _ (by simp [validateEmail])
  | vNull => exact wf_of_errors_ne _ (by simp [validateEmail])
  | vUndef => exact wf_of_errors_ne _ (by simp [validateEmail])
  | vArr es => exact wf_of_errors_ne _ (by simp [validateEmail])
  | vObj fs => exact wf_of_errors_ne _ (by simp [validateEmail])

/-- Once the plus-addressing stage has fired, no later stage of the chain
can reset `success`. -/
theorem emailChecks_plus_false (o : EmailOptions) (value : Value)
    (email locPart domain : String) (h : strContainsChar locPart '+' = true) :
    (emailChecks o value email locPart domain).success = false := by
  unfold emailChecks
  apply success_false_setData
  apply success_false_addWarnIf
  apply success_false_addErrorIf
  apply success_false_addErrorIf
  apply success_false_addErrorIf
  apply success_false_addErrorIf
  apply success_false_addErrorIf
  apply success_false_addErrorIf
  apply success_false_addErrorIf
  apply success_false_addErrorIf
  apply success_false_addErrorIf
  apply success_false_addErrorIf
  apply success_false_addErrorIf
  apply success_false_addErrorIf
  exact success_false_addErrorIf_true _ _ _ h

/-- The plus-addressing error survives to the final result. -/
theorem emailChecks_plus_mem (o : EmailOptions) (value : Value)
    (email locPart domain : String) (h : strContainsChar locPart '+' = true) :
    createValidationError [] "Plus addressing (+ symbols) is not allowed"
      ErrorCode.SECURITY_VIOLATION
    ∈ (emailChecks o value email locPart domain).errors := by
  unfold emailChecks
  apply mem_errors_setData
  apply mem_errors_addWarnIf
  apply mem_errors_addErrorIf
  apply mem_errors_addErrorIf
  apply mem_errors_addErrorIf
  apply mem_errors_addErrorIf
  apply mem_errors_addErrorIf
  apply mem_errors_addErrorIf
  apply mem_errors_addErrorIf
  apply mem_errors_addErrorIf
  apply mem_errors_addErrorIf
  apply mem_errors_addErrorIf
  apply mem_errors_addErrorIf
  apply mem_errors_addErrorIf
  rw [h]
  exact mem_errors_added _ _

/-! ### IP validator (`SecurityValidators.validateIp`) -/

inductive IpVersion where
  | v4
  | v6
  | both
deriving DecidableEq

/-- Options of `validateIp`, with the source defaults. -/
structure IpOptions where
  version : IpVersion := .both
  allowPrivate : Bool := true
  allowLoopback : Bool := true
  allowMulticast : Bool := false
  allowReserved : Bool := true
  allowCIDR : Bool := false
  strict : Bool := true
  blockBogons : Bool := false
  allowDocumentation : Bool := true

def isHexLetter (c : Char) : Bool :=
  ('a' ≤ c && c ≤ 'f') || ('A' ≤ c && c ≤ 'F')

/-- The basic format regex `/^[\d\.:a-fA-F\/]+$/`. -/
def ipCharsOk (s : String) : Bool :=
  !s.toList.isEmpty &&
  s.toList.all (fun c => c.isDigit || c = '.' || c = ':' || isHexLetter c || c = '/')

/-- Modelled from the spec: `validateIPv4` from `securityHelpers` (not in
the provided sources) — IPv4 literal syntax: four dot-separated decimal
octets, each 0-255; strict mode additionally rejects leading zeros. -/
def validateIPv4 (s : String) (strict : Bool) : Bool :=
  let parts := splitOnCharJs '.' s
  parts.length == 4 && parts.all (fun p =>
    !p.toList.isEmpty && p.toList.all Char.isDigit &&
    decide ((parseNatAll p).getD 256 ≤ 255) &&
    (!strict || p == "0" || !strStartsWith p "0"))

/-- Modelled from the spec: `validateIPv6` from `securityHelpers` — IPv6
literal syntax, modelled as colon-separated hex text (every claim settled
here applies it only to dotted-decimal inputs, where it is false). -/
def validateIPv6 (s : String) (_strict : Bool) : Bool :=
  strContainsChar s ':' &&
  s.toList.all (fun c => c.isDigit || isHexLetter c || c = ':')

/-- Modelled from the spec: `normalizeIPv6` from `securityHelpers`, which
expands an IPv6 literal to its full zero-padded form; the claims settled
here never reach the IPv6 policy branch, so it is modelled as the
identity. -/
def normalizeIPv6 (s : String) : String := s

/-- `ipAddress.split(".").map(Number)` with JavaScript indexing: a missing
or non-numeric octet reads as the sentinel `100000`, for which every
equality and range test below is false — exactly as for `NaN`/`undefined`
in the source. -/
def ipOct (l : List Nat) (i : Nat) : Nat := l.getD i 100000

/-- The part of `validateIp` after CIDR stripping (source lines 789-1025):
format/version early returns, then the accumulating policy chain.  The
`cidrPrefix < 0` half of the source's range checks cannot fire because the
prefix was parsed from `/^\d+$/`. -/
def validateIpAfter (o : IpOptions) (value : Value) (ipAddress : String)
    (cidr : Option Nat) : SchemaValidationResult :=
  let isIPv4 := validateIPv4 ipAddress o.strict
  let isIPv6 := validateIPv6 ipAddress o.strict
  if o.version == .v4 && !isIPv4 then
    { success := false
      errors := [createValidationError [] "Invalid IPv4 address format"
        ErrorCode.SECURITY_VIOLATION]
      warnings := [], data := value }
  else if o.version == .v6 && !isIPv6 then
    { success := false
      errors := [createValidationError [] "Invalid IPv6 address format"
        ErrorCode.SECURITY_VIOLATION]
      warnings := [], data := value }
  else if o.version == .both && !isIPv4 && !isIPv6 then
    { success := false
      errors := [createValidationError []
        "Invalid IP address format (must be valid IPv4 or IPv6)"
        ErrorCode.SECURITY_VIOLATION]
      warnings := [], data := value }
  else
    let octets := (splitOnCharJs '.' ipAddress).map (fun p => (parseNatAll p).getD 100000)
    let normalized := normalizeIPv6 ipAddress
    initResult value
    |> addErrorIf (match cidr with
          | some n => isIPv4 && decide (n > 32)
          | none => false)
        (createValidationError [] "Invalid IPv4 CIDR prefix (must be 0-32)"
          ErrorCode.SECURITY_VIOLATION)
    |> addErrorIf (match cidr with
          | some n => isIPv6 && decide (n > 128)
          | none => false)
        (createValidationError [] "Invalid IPv6 CIDR prefix (must be 0-128)"
          ErrorCode.SECURITY_VIOLATION)
    |> addErrorIf (isIPv4 && !o.allowPrivate &&
          (ipOct octets 0 == 10 ||
           (ipOct octets 0 == 172 && decide (16 ≤ ipOct octets 1) && decide (ipOct octets 1 ≤ 31)) ||
           (ipOct octets 0 == 192 && ipOct octets 1 == 168) ||
           (ipOct octets 0 == 169 && ipOct octets 1 == 254)))
        (createValidationError [] "Private IPv4 addresses not allowed"
          ErrorCode.SECURITY_VIOLATION)
    |> addErrorIf (isIPv4 && !o.allowLoopback && ipOct octets 0 == 127)
        (createValidationError [] "Loopback addresses not allowed"
          ErrorCode.SECURITY_VIOLATION)
    |> addErrorIf (isIPv4 && !o.allowMulticast &&
          decide (224 ≤ ipOct octets 0) && decide (ipOct octets 0 ≤ 239))
        (createValidationError [] "Multicast addresses not allowed"
          ErrorCode.SECURITY_VIOLATION)
    |> addErrorIf (isIPv4 && !o.allowDocumentation &&
          ((ipOct octets 0 == 192 && ipOct octets 1 == 0 && ipOct octets 2 == 2) ||
           (ipOct octets 0 == 198 && ipOct octets 1 == 51 && ipOct octets 2 == 100) ||
           (ipOct octets 0 == 203 && ipOct octets 1 == 0 && ipOct octets 2 == 113)))
        (createValidationError [] "Documentation addresses not allowed"
          ErrorCode.SECURITY_VIOLATION)
    |> addErrorIf (isIPv4 && o.blockBogons &&
          (ipOct octets 0 == 0 || ipOct octets 0 == 255 ||
           (decide (240 ≤ ipOct octets 0) && decide (ipOct octets 0 ≤ 255))))
        (createValidationError [] "Bogon IP address detected"
          ErrorCode.SECURITY_VIOLATION)
    |> addErrorIf (isIPv4 && !o.allowReserved &&
          (ipOct octets 0 == 0 || ipOct octets 0 == 255))
        (createValidationError [] "Reserved IPv4 addresses not allowed"
          ErrorCode.SECURITY_VIOLATION)
    |> addErrorIf (isIPv6 && !o.allowLoopback &&
          normalized == "0000:0000:0000:0000:0000:0000:0000:0001")
        (createValidationError [] "IPv6 loopback address not allowed"
          ErrorCode.SECURITY_VIOLATION)
    |> addErrorIf (isIPv6 && !o.allowPrivate &&
          (strStartsWith normalized "fc00:" || strStartsWith normalized "fd00:"))
        (createValidationError [] "Private IPv6 addresses not allowed"
          ErrorCode.SECURITY_VIOLATION)
    |> addErrorIf (isIPv6 && !o.allowPrivate && strStartsWith normalized "fe80:")
        (createValidationError [] "Link-local IPv6 addresses not allowed"
          ErrorCode.SECURITY_VIOLATION)
    |> addErrorIf (isIPv6 && !o.allowMulticast && strStartsWith normalized "ff00:")
        (createValidationError [] "IPv6 multicast addresses not allowed"
          ErrorCode.SECURITY_VIOLATION)
    |> addErrorIf (isIPv6 && !o.allowDocumentation && strStartsWith normalized "2001:0db8:")
        (createValidationError [] "Documentation IPv6 addresses not allowed"
          ErrorCode.SECURITY_VIOLATION)

/-- `SecurityValidators.validateIp`: type check, trim, character-class
check, CIDR stripping, then `validateIpAfter`. -/
def validateIp (value : Value) (o : IpOptions) : SchemaValidationResult :=
  match value with
  | .vStr s =>
    if !ipCharsOk (jsTrim s) then
      { success := false
        errors := [createValidationError [] "IP address contains invalid characters"
          ErrorCode.SECURITY_VIOLATION]
        warnings := [], data := .vStr s }
    else if strContainsChar (jsTrim s) '/' then
      if !o.allowCIDR then
        { success := false
          errors := [createValidationError [] "CIDR notation is not allowed"
            ErrorCode.SECURITY_VIOLATION]
          warnings := [], data := .vStr s }
      else if (splitOnCharJs '/' (jsTrim s)).length != 2 then
        { success := false
          errors := [createValidationError [] "Invalid CIDR notation format"
            ErrorCode.SECURITY_VIOLATION]
          warnings := [], data := .vStr s }
      else
        match parseNatAll ((splitOnCharJs '/' (jsTrim s)).getD 1 "") with
        | none =>
          { success := false
            errors := [createValidationError [] "CIDR prefix must be numeric"
              ErrorCode.SECURITY_VIOLATION]
            warnings := [], data := .vStr s }
        | some n =>
          validateIpAfter o (.vStr s) ((splitOnCharJs '/' (jsTrim s)).getD 0 "") (some n)
    else validateIpAfter o (.vStr s) (jsTrim s) none
  | v =>
    { success := false
      errors := [createSimpleError "Expected string for IP address" [] "string"]
      warnings := [], data := v }

theorem wf_validateIpAfter (o : IpOptions) (value : Value) (ipAddress : String)
    (cidr : Option Nat) : wfResult (validateIpAfter o value ipAddress cidr) := by
  simp only [validateIpAfter]
  split
  · exact wf_of_errors_ne _ (by simp)
  · split
    · exact wf_of_errors_ne _ (by simp)
    · split
      · exact wf_of_errors_ne _ (by simp)
      · apply wf_addErrorIf
        apply wf_addErrorIf
        apply wf_addErrorIf
        apply wf_addErrorIf
        apply wf_addErrorIf
        apply wf_addErrorIf
        apply wf_addErrorIf
        apply wf_addErrorIf
        apply wf_addErrorIf
        apply wf_addErrorIf
        apply wf_addErrorIf
        apply wf_addErrorIf
        apply wf_addErrorIf
        exact wf_initResult value

theorem wf_validateIp (value : Value) (o : IpOptions) :
    wfResult (validateIp value o) := by
  cases value with
  | vStr s =>
      simp only [validateIp]
      split
      · exact wf_of_errors_ne _ (by simp)
      · split
        · split
          · exact wf_of_errors_ne _ (by simp)
          · split
            · exact wf_of_errors_ne _ (by simp)
            · split
              · exact wf_of_errors_ne _ (by simp)
              · exact wf_validateIpAfter _ _ _ _
        · exact wf_validateIpAfter _ _ _ _
  | vNum n => exact wf_of_errors_ne _ (by simp [validateIp])
  | vBool b => exact wf_of_errors_ne _ (by simp [validateIp])
  | vNull => exact wf_of_errors_ne _ (by simp [validateIp])
  | vUndef => exact wf_of_errors_ne _ (by simp [validateIp])
  | vArr es => exact wf_of_errors_ne _ (by simp [validateIp])
  | vObj fs => exact wf_of_errors_ne _ (by simp [validateIp])

/-! ### Object validator (`SecurityValidators.validateObject`) -/

/-- Options of `validateObject`, with the source defaults.  The key regex
and the external structural-schema delegate are modelled as functions. -/
structure ObjectOptions where
  allowNull : Bool := false
  allowArray : Bool := false
  maxDepth : Nat := MAX_OBJECT_DEPTH
  maxKeys : Nat := 1000
  requiredKeys : List String := []
  allowedKeys : List String := []
  forbiddenKeys : List String := []
  keyPattern : Option (String → Bool) := none
  schema : Option (Value → SchemaValidationResult) := none
  strict : Bool := false
  preventPrototypePollution : Bool := true
  maxPropertyNameLength : Nat := 100

/-- The suspicious-name heuristic `/^__|.*prototype.*|.*constructor.*$/i`. -/
def keySuspicious (k : String) : Bool :=
  strStartsWith k "__" || containsSubstr (jsToLower k) "prototype" ||
  containsSubstr (jsToLower k) "constructor"

/-- One iteration of the key loop (source lines 1148-1219); the source's
`continue` after the length and dangerous-name checks becomes the early
`if` arms. -/
def objectKeyStep (o : ObjectOptions) (r : SchemaValidationResult)
    (k : String) : SchemaValidationResult :=
  if jsLength k > o.maxPropertyNameLength then
    addErrorIf true
      (createValidationError [] "Property name exceeds maximum length"
        ErrorCode.SECURITY_VIOLATION) r
  else if DANGEROUS_PROPERTIES.contains k then
    addErrorIf true
      (createValidationError [] ("Dangerous property name detected: " ++ k)
        ErrorCode.SECURITY_VIOLATION) r
  else
    (if !o.allowedKeys.isEmpty && !o.allowedKeys.contains k then
       (if o.strict then
          addErrorIf true
            (createValidationError [] ("Key " ++ k ++ " is not in allowed keys list")
              ErrorCode.SECURITY_VIOLATION) r
        else addWarnIf true ("Key " ++ k ++ " is not in allowed keys list") r)
     else r)
    |> addErrorIf (o.forbiddenKeys.contains k)
        (createValidationError [] ("Key " ++ k ++ " is forbidden")
          ErrorCode.SECURITY_VIOLATION)
    |> addErrorIf (match o.keyPattern with
          | some p => !(p k)
          | none => false)
        (createValidationError [] ("Key " ++ k ++ " does not match required pattern")
          ErrorCode.SECURITY_VIOLATION)
    |> addWarnIf (keySuspicious k) ("Suspicious property name detected: " ++ k)

/-- Modelled from the spec: `validateObjectDeep` from `securityHelpers`
(not in the provided sources) — the depth-bounded recursive structural
walk; it fails exactly when the nesting depth exceeds `maxDepth`. -/
def objectDeepResult (maxDepth : Nat) (v : Value) : Bool × List ValidationError :=
  if depthOf v > maxDepth then
    (false, [createValidationError [] "Object nesting depth exceeds maximum"
      ErrorCode.SECURITY_VIOLATION])
  else (true, [])

/-- The optional external structural-schema delegate step
(`if (schema && result.success)`). -/
def objectSchemaStep (o : ObjectOptions) (v : Value)
    (r : SchemaValidationResult) : SchemaValidationResult :=
  match o.schema with
  | some d => if r.success then mergeChecks (d v).success (d v).errors (d v).warnings r else r
  | none => r

/-- `SecurityValidators.validateObject`: null / array gates, type check,
pollution guard, then key-count, required-key and per-key checks, the deep
walk, and the optional schema delegate. -/
def validateObject (value : Value) (o : ObjectOptions) : SchemaValidationResult :=
  match value with
  | .vNull =>
      if !o.allowNull then
        { success := false
          errors := [createValidationError [] "Null values not allowed"
            ErrorCode.SECURITY_VIOLATION]
          warnings := [], data := .vNull }
      else initResult .vNull
  | .vArr es =>
      if !o.allowArray then
        { success := false
          errors := [createValidationError [] "Arrays not allowed"
            ErrorCode.SECURITY_VIOLATION]
          warnings := [], data := .vArr es }
      else initResult (.vArr es)
  | .vObj fs =>
      if o.preventPrototypePollution && hasDangerousPropsV (.vObj fs) then
        { success := false
          errors := [createValidationError []
            "Object contains dangerous properties that could lead to prototype pollution"
            ErrorCode.SECURITY_VIOLATION]
          warnings := [], data := .vObj fs }
      else
        initResult (.vObj fs)
        |> addErrorIf ((fs.map Prod.fst).length > o.maxKeys)
            (createValidationError [] "Object has too many keys"
              ErrorCode.SECURITY_VIOLATION)
        |> (fun r => o.requiredKeys.foldl (fun r2 rk =>
              addErrorIf (!(fs.map Prod.fst).contains rk)
                (createValidationError [] ("Missing required key: " ++ rk)
                  ErrorCode.SECURITY_VIOLATION) r2) r)
        |> (fun r => (fs.map Prod.fst).foldl (objectKeyStep o) r)
        |> (fun r => mergeChecks (objectDeepResult o.maxDepth (.vObj fs)).1
              (objectDeepResult o.maxDepth (.vObj fs)).2 [] r)
        |> objectSchemaStep o (.vObj fs)
  | v =>
    { success := false, errors := [createTypeError [] "object" v],
      warnings := [], data := v }

theorem wf_foldl (step : SchemaValidationResult → String → SchemaValidationResult)
    (hstep : ∀ r k, wfResult r → wfResult (step r k)) :
    ∀ (l : List String) (r : SchemaValidationResult),
      wfResult r → wfResult (l.foldl step r) := by
  intro l
  induction l with
  | nil => intro r h; exact h
  | cons k rest ih => intro r h; exact ih (step r k) (hstep r k h)

theorem wf_objectKeyStep (o : ObjectOptions) (r : SchemaValidationResult)
    (k : String) (h : wfResult r) : wfResult (objectKeyStep o r k) := by
  unfold objectKeyStep
  split
  · exact wf_addErrorIf _ _ _ h
  · split
    · exact wf_addErrorIf _ _ _ h
    · apply wf_addWarnIf
      apply wf_addErrorIf
      apply wf_addErrorIf
      split
      · split
        · exact wf_addErrorIf _ _ _ h
        · exact wf_addWarnIf _ _ _ h
      · exact h

theorem wf_objectDeepResult (maxDepth : Nat) (v : Value) :
    (objectDeepResult maxDepth v).1 = false → (objectDeepResult maxDepth v).2 ≠ [] := by
  unfold objectDeepResult
  split <;> simp

theorem wf_objectSchemaStep (o : ObjectOptions) (v : Value)
    (r : SchemaValidationResult) (h : wfResult r)
    (hs : ∀ d, o.schema = some d → wfResult (d v)) :
    wfResult (objectSchemaStep o v r) := by
  unfold objectSchemaStep
  split
  case h_1 d heq =>
    split
    · exact wf_mergeChecks _ _ _ _ h (hs d heq)
    · exact h
  case h_2 => exact h

theorem wf_validateObject (value : Value) (o : ObjectOptions)
    (hs : ∀ d, o.schema = some d → ∀ x, wfResult (d x)) :
    wfResult (validateObject value o) := by
  cases value with
  | vObj fs =>
      simp only [validateObject]
      split
      · exact wf_of_errors_ne _ (by simp)
      · apply wf_objectSchemaStep _ _ _ _ (fun d hd => hs d hd _)
        apply wf_mergeChecks _ _ _ _ _ (wf_objectDeepResult _ _)
        apply wf_foldl _ (wf_objectKeyStep o)
        apply wf_foldl _ (fun r k h => wf_addErrorIf _ _ r h)
        apply wf_addErrorIf
        exact wf_initResult _
  | vNull =>
      simp only [validateObject]
      split
      · exact wf_of_errors_ne _ (by simp)
      · exact wf_initResult _
  | vArr es =>
      simp only [validateObject]
      split
      · exact wf_of_errors_ne _ (by simp)
      · exact wf_initResult _
  | vStr s => exact wf_of_errors_ne _ (by simp [validateObject])
  | vNum n => exact wf_of_errors_ne _ (by simp [validateObject])
  | vBool b => exact wf_of_errors_ne _ (by simp [validateObject])
  | vUndef => exact wf_of_errors_ne _ (by simp [validateObject])

/-! ### JSON validator (`SecurityValidators.validateJsonSync` / `validateJson`) -/

inductive SecurityMode where
  | fast
  | secure
  | strict
deriving DecidableEq

/-- Options of `validateJson`, with the source defaults.  The external
structural-schema delegate is a function; `useCache`/`timeout`/`enableMetrics`
drive the wrapper and are modelled by the wrapper's `timedOut` flag. -/
structure JsonOptions where
  maxDepth : Nat := MAX_OBJECT_DEPTH
  maxKeys : Nat := 1000
  maxStringLength : Nat := 10000
  maxArrayLength : Nat := 1000
  allowedTypes : List String := ["object", "array", "string", "number", "boolean", "null"]
  forbiddenKeys : List String := []
  schema : Option (Value → SchemaValidationResult) := none
  preventCircular : Bool := true
  maxSize : Nat := MAX_JSON_SIZE
  securityMode : SecurityMode := .secure

def jsonTypeErr (allowedTypes : List String) (v : Value) : List ValidationError :=
  if !allowedTypes.contains (typeNameOf v) then
    [createValidationError [] "JSON contains a disallowed type" ErrorCode.INVALID_JSON]
  else []

/-- Modelled from the spec: the recursive part of `validateJsonDeep` from
`securityHelpers` (not in the provided sources) — per node it enforces the
allowed-type policy, per-node string and array length caps, forbidden keys,
and the maximum nesting depth, accumulating every violation. -/
def jsonDeepErrors (maxStrLen maxArrLen : Nat)
    (allowedTypes forbiddenKeys : List String) : Nat → Value → List ValidationError
  | _, .vStr s =>
      jsonTypeErr allowedTypes (.vStr s) ++
      (if jsLength s > maxStrLen then
        [createValidationError [] "JSON string node exceeds maximum length"
          ErrorCode.INVALID_JSON]
       else [])
  | 0, .vArr es =>
      jsonTypeErr allowedTypes (.vArr es) ++
      [createValidationError [] "JSON exceeds maximum nesting depth" ErrorCode.INVALID_JSON]
  | 0, .vObj fs =>
      jsonTypeErr allowedTypes (.vObj fs) ++
      [createValidationError [] "JSON exceeds maximum nesting depth" ErrorCode.INVALID_JSON]
  | d + 1, .vArr es =>
      jsonTypeErr allowedTypes (.vArr es) ++
      (if es.length > maxArrLen then
        [createValidationError [] "JSON array node exceeds maximum length"
          ErrorCode.INVALID_JSON]
       else []) ++
      es.foldr (fun x acc =>
        jsonDeepErrors maxStrLen maxArrLen allowedTypes forbiddenKeys d x ++ acc) []
  | d + 1, .vObj fs =>
      jsonTypeErr allowedTypes (.vObj fs) ++
      (fs.filter (fun kv => forbiddenKeys.contains kv.1)).map (fun kv =>
        createValidationError [] ("JSON contains forbidden key: " ++ kv.1)
          ErrorCode.INVALID_JSON) ++
      fs.foldr (fun kv acc =>
        jsonDeepErrors maxStrLen maxArrLen allowedTypes forbiddenKeys d kv.2 ++ acc) []
  | _, v => jsonTypeErr allowedTypes v

/-- Modelled from the spec: `validateJsonDeep` — the cumulative key-count
cap over the whole document plus the recursive per-node checks; it succeeds
exactly when no violation was collected. -/
def jsonDeepResult (o : JsonOptions) (v : Value) : Bool × List ValidationError :=
  let errs :=
    (if totalKeys v > o.maxKeys then
      [createValidationError [] "JSON exceeds maximum cumulative key count"
        ErrorCode.INVALID_JSON]
     else []) ++
    jsonDeepErrors o.maxStringLength o.maxArrayLength o.allowedTypes
      o.forbiddenKeys o.maxDepth v
  (errs.isEmpty, errs)

/-- The optional schema-delegate step of `validateJsonSync`
(`if (schema && result.success)`). -/
def jsonSchemaStep (o : JsonOptions) (v : Value)
    (r : SchemaValidationResult) : SchemaValidationResult :=
  match o.schema with
  | some d => if r.success then mergeChecks (d v).success (d v).errors (d v).warnings r else r
  | none => r

/-- The post-parse body of `validateJsonSync` (source lines 595-673):
security-mode gates, the circular-reference probe — which on the cycle-free
tree embedding never fires, since `JSON.stringify` of a tree always
succeeds — then the deep merge, the `result.data = parsedData` assignment
and the schema delegate.  The AJV gate is the abstract external delegate
`ajvOk`; its diagnostic warning push is omitted because the abstract
delegate exposes no error list. -/
def jsonBody (ajvOk : Value → Bool) (o : JsonOptions) (origValue parsed : Value) :
    SchemaValidationResult :=
  if (o.securityMode == .secure || o.securityMode == .strict) && hasDangerousPropsV parsed then
    { success := false
      errors := [createValidationError []
        "JSON contains dangerous properties (prototype pollution risk)"
        ErrorCode.INVALID_JSON]
      warnings := [], data := origValue }
  else if o.securityMode == .strict && !ajvOk parsed then
    { success := false
      errors := [createValidationError [] "JSON failed strict security validation"
        ErrorCode.INVALID_JSON]
      warnings := [], data := origValue }
  else
    initResult origValue
    |> (fun r => mergeChecks (jsonDeepResult o parsed).1 (jsonDeepResult o parsed).2 [] r)
    |> setData parsed
    |> jsonSchemaStep o parsed

/-- `SecurityValidators.validateJsonSync`: string inputs are size-checked
then parsed (`parse` stands for the runtime `JSON.parse`, external to the
repository); objects and arrays pass through; anything else is a type
error. -/
def validateJsonSync (parse : String → Option Value) (ajvOk : Value → Bool)
    (value : Value) (o : JsonOptions) : SchemaValidationResult :=
  match value with
  | .vStr s =>
      if jsLength s > o.maxSize then
        { success := false
          errors := [createStringError []
            ("JSON string exceeds maximum size of " ++ toString o.maxSize ++ " characters")
            (.vStr s) ErrorCode.STRING_TOO_LONG]
          warnings := [], data := .vStr s }
      else
        match parse s with
        | none =>
          { success := false
            errors := [createValidationError [] "Invalid JSON string"
              ErrorCode.INVALID_JSON]
            warnings := [], data := .vStr s }
        | some parsed => jsonBody ajvOk o (.vStr s) parsed
  | .vObj fs => jsonBody ajvOk o (.vObj fs) (.vObj fs)
  | .vArr es => jsonBody ajvOk o (.vArr es) (.vArr es)
  | v =>
    { success := false, errors := [createTypeError [] "string or object" v],
      warnings := [], data := v }

/-- `SecurityValidators.validateJson`: the async wrapper; the cache layer
only replays results this same computation produced, so the uncached
computation is the model. -/
def validateJson (timedOut : Bool) (parse : String → Option Value)
    (ajvOk : Value → Bool) (value : Value) (o : JsonOptions) :
    SchemaValidationResult :=
  if timedOut then
    { success := false
      errors := [createValidationError [] "Validation timeout"
        ErrorCode.UNKNOWN_ERROR]
      warnings := [], data := value }
  else validateJsonSync parse ajvOk value o

theorem wf_jsonDeepResult (o : JsonOptions) (v : Value) :
    (jsonDeepResult o v).1 = false → (jsonDeepResult o v).2 ≠ [] := by
  unfold jsonDeepResult
  intro h
  simpa using h

theorem wf_jsonSchemaStep (o : JsonOptions) (v : Value)
    (r : SchemaValidationResult) (h : wfResult r)
    (hs : ∀ d, o.schema = some d → wfResult (d v)) :
    wfResult (jsonSchemaStep o v r) := by
  unfold jsonSchemaStep
  split
  case h_1 d heq =>
    split
    · exact wf_mergeChecks _ _ _ _ h (hs d heq)
    · exact h
  case h_2 => exact h

theorem wf_jsonBody (ajvOk : Value → Bool) (o : JsonOptions)
    (origValue parsed : Value)
    (hs : ∀ d, o.schema = some d → ∀ x, wfResult (d x)) :
    wfResult (jsonBody ajvOk o origValue parsed) := by
  unfold jsonBody
  split
  · exact wf_of_errors_ne _ (by simp)
  · split
    · exact wf_of_errors_ne _ (by simp)
    · apply wf_jsonSchemaStep _ _ _ _ (fun d hd => hs d hd _)
      apply wf_setData
      exact wf_mergeChecks _ _ _ _ (wf_initResult _) (wf_jsonDeepResult o parsed)

theorem wf_validateJsonSync (parse : String → Option Value) (ajvOk : Value → Bool)
    (value : Value) (o : JsonOptions)
    (hs : ∀ d, o.schema = some d → ∀ x, wfResult (d x)) :
    wfResult (validateJsonSync parse ajvOk value o) := by
  cases value with
  | vStr s =>
      simp only [validateJsonSync]
      split
      · exact wf_of_errors_ne _ (by simp)
      · split
        · exact wf_of_errors_ne _ (by simp)
        · exact wf_jsonBody _ _ _ _ hs
  | vObj fs => exact wf_jsonBody _ _ _ _ hs
  | vArr es => exact wf_jsonBody _ _ _ _ hs
  | vNum n => exact wf_of_errors_ne _ (by simp [validateJsonSync])
  | vBool b => exact wf_of_errors_ne _ (by simp [validateJsonSync])
  | vNull => exact wf_of_errors_ne _ (by simp [validateJsonSync])
  | vUndef => exact wf_of_errors_ne _ (by simp [validateJsonSync])

theorem wf_validateJson (timedOut : Bool) (parse : String → Option Value)
    (ajvOk : Value → Bool) (value : Value) (o : JsonOptions)
    (hs : ∀ d, o.schema = some d → ∀ x, wfResult (d x)) :
    wfResult (validateJson timedOut parse ajvOk value o) := by
  unfold validateJson
  split
  · exact wf_of_errors_ne _ (by simp)
  · exact wf_validateJsonSync parse ajvOk value o hs

/-! ### Batch orchestrator (`SecurityValidators.validateBatch`) -/

/-- The window-slicing loop
`for (let i = 0; i < values.length; i += maxConcurrency)`, fuelled by the
input length.  For `n ≥ 1` this is exactly the source loop; for `n = 0`
the source loop does not terminate (the fuel then merely truncates — no
claim exercises that case). -/
def chunkGo (n : Nat) : Nat → List α → List (List α)
  | _, [] => []
  | 0, _ :: _ => []
  | fuel + 1, x :: xs => ((x :: xs).take n) :: chunkGo n fuel ((x :: xs).drop n)

def chunkWindows (n : Nat) (l : List α) : List (List α) := chunkGo n l.length l

/-- The window loop of `validateBatch` (source lines 1574-1601): each
window is mapped through the item validator (whose per-item `try`/`catch`
makes it total), results are appended, and with `continueOnError = false`
processing breaks after the first window containing a failure — after that
window's results were pushed. -/
def runWindows (f : α → SchemaValidationResult) (continueOnError : Bool) :
    List (List α) → List SchemaValidationResult
  | [] => []
  | b :: rest =>
      if !continueOnError && (b.map f).any (fun r => !r.success) then b.map f
      else b.map f ++ runWindows f continueOnError rest

/-- The `results` sequence produced by `validateBatch` when the shared
timeout does not fire. -/
def validateBatchResults (values : List α) (f : α → SchemaValidationResult)
    (continueOnError : Bool) (maxConcurrency : Nat) : List SchemaValidationResult :=
  runWindows f continueOnError (chunkWindows maxConcurrency values)

/-- The summary record `{total, passed, failed}` of `validateBatch`. -/
def batchSummary (results : List SchemaValidationResult) : Nat × Nat × Nat :=
  (results.length,
   (results.filter (fun r => r.success)).length,
   (results.filter (fun r => !r.success)).length)

/-- The timeout catch-branch of `validateBatch` (source lines 1603-1620):
`remaining = values.length - results.length` entries are synthesized; the
`i`-th push reads `values[results.length + i]` AFTER `i` earlier pushes
have already grown `results`, so it reads index `produced + i + i`
(out-of-range reads yield `undefined`, as in JavaScript). -/
def synthesizeTimeouts (values : List Value)
    (produced : List SchemaValidationResult) : List SchemaValidationResult :=
  produced ++ (List.range (values.length - produced.length)).map (fun i =>
    { success := false
      errors := [createValidationError [] "Batch validation timeout"
        ErrorCode.UNKNOWN_ERROR]
      warnings := []
      data := values.getD (produced.length + i + i) Value.vUndef })

/-! ### The pollution scanner on cyclic heaps (`hasDangerousProperties`)

The `WeakSet`-guarded recursion of `hasDangerousProperties` is modelled on
an explicit finite heap: `ObjGraph.nodes` is the set of object identities,
`fields` lists each object's own properties, whose values are either
primitives or references to other nodes (possibly forming cycles).  The
scan carries the visited set exactly as the source does — it is inserted
into before the key loop and shared (threaded) through the child
recursions — and is fuelled; `scanG_some` shows fuel equal to the number
of not-yet-visited nodes plus one always suffices, which is the
well-foundedness content of the claim. -/

inductive GVal where
  | prim
  | ref (n : Nat)

structure ObjGraph where
  nodes : Finset Nat
  fields : Nat → List (String × GVal)

/-- `hasDangerousProperties(obj, visited)` on the heap `g`: a non-object or
already-visited node answers `false` immediately; otherwise the node is
marked visited, its own keys are checked against the denylist, and its
object-valued properties are scanned with the shared visited set.
`none` means the fuel ran out. -/
def scanG (g : ObjGraph) : Nat → Nat → Finset Nat → Option (Bool × Finset Nat)
  | 0, _, _ => none
  | fuel + 1, id, visited =>
    if id ∉ g.nodes ∨ id ∈ visited then some (false, visited)
    else
      if (g.fields id).any (fun kv => DANGEROUS_PROPERTIES.contains kv.1) then
        some (true, insert id visited)
      else
        (g.fields id).foldl (fun acc kv =>
          match acc, kv.2 with
          | none, _ => none
          | some (true, vis), _ => some (true, vis)
          | some (false, vis), GVal.prim => some (false, vis)
          | some (false, vis), GVal.ref r => scanG g fuel r vis)
          (some (false, insert id visited))

theorem scanG_foldl_some (g : ObjGraph) (f : Nat)
    (ih : ∀ id vis, (g.nodes \ vis).card < f →
      ∃ b vis2, scanG g f id vis = some (b, vis2) ∧ vis ⊆ vis2 ∧ vis2 ⊆ vis ∪ g.nodes) :
    ∀ (l : List (String × GVal)) (b : Bool) (vis : Finset Nat),
      (g.nodes \ vis).card < f →
      ∃ b2 vis2,
        l.foldl (fun acc kv =>
          match acc, kv.2 with
          | none, _ => none
          | some (true, v), _ => some (true, v)
          | some (false, v), GVal.prim => some (false, v)
          | some (false, v), GVal.ref r => scanG g f r v) (some (b, vis)) = some (b2, vis2)
        ∧ vis ⊆ vis2 ∧ vis2 ⊆ vis ∪ g.nodes := by
  intro l
  induction l with
  | nil =>
      intro b vis h
      exact ⟨b, vis, rfl, Finset.Subset.refl _, Finset.subset_union_left⟩
  | cons kv rest ihl =>
      intro b vis h
      cases b with
      | true =>
          cases hkv : kv.2 with
          | prim => simpa [hkv] using ihl true vis h
          | ref r => simpa [hkv] using ihl true vis h
      | false =>
          cases hkv : kv.2 with
          | prim => simpa [hkv] using ihl false vis h
          | ref r =>
              obtain ⟨b2, vis2, heq, hsub1, hsub2⟩ := ih r vis h
              have hcard : (g.nodes \ vis2).card < f := by
                calc (g.nodes \ vis2).card
                    ≤ (g.nodes \ vis).card :=
                      Finset.card_le_card
                        (Finset.sdiff_subset_sdiff (Finset.Subset.refl _) hsub1)
                  _ < f := h
              obtain ⟨b3, vis3, heq3, hsub3, hsub4⟩ := ihl b2 vis2 hcard
              refine ⟨b3, vis3, ?_, hsub1.trans hsub3, ?_⟩
              · simpa [hkv, heq] using heq3
              · intro x hx
                rcases Finset.mem_union.mp (hsub4 hx) with hx2 | hx2
                · rcases Finset.mem_union.mp (hsub2 hx2) with hx3 | hx3
                  · exact Finset.mem_union_left _ hx3
                  · exact Finset.mem_union_right _ hx3
                · exact Finset.mem_union_right _ hx2

/-- Fuel one past the number of not-yet-visited nodes always suffices: the
scan terminates on every heap, cyclic or not, because each recursion into
an unvisited node strictly shrinks the set of not-yet-visited nodes. -/
theorem scanG_some (g : ObjGraph) :
    ∀ (fuel : Nat) (id : Nat) (vis : Finset Nat),
      (g.nodes \ vis).card < fuel →
      ∃ b vis2, scanG g fuel id vis = some (b, vis2) ∧ vis ⊆ vis2 ∧ vis2 ⊆ vis ∪ g.nodes := by
  intro fuel
  induction fuel with
  | zero => intro id vis h; exact absurd h (Nat.not_lt_zero _)
  | succ f ih =>
      intro id vis h
      by_cases hguard : id ∉ g.nodes ∨ id ∈ vis
      · refine ⟨false, vis, ?_, Finset.Subset.refl _, Finset.subset_union_left⟩
        simp only [scanG]
        rw [if_pos hguard]
      · push_neg at hguard
        obtain ⟨hin, hnot⟩ := hguard
        have hins : insert id vis ∪ g.nodes = vis ∪ g.nodes := by
          rw [Finset.insert_union,
              Finset.insert_eq_self.mpr (Finset.mem_union_right _ hin)]
        have hmemsd : id ∈ g.nodes \ vis := Finset.mem_sdiff.mpr ⟨hin, hnot⟩
        have hcard : (g.nodes \ insert id vis).card < f := by
          have h1 : g.nodes \ insert id vis = (g.nodes \ vis).erase id :=
            Finset.sdiff_insert g.nodes vis id
          have h2 : ((g.nodes \ vis).erase id).card = (g.nodes \ vis).card - 1 :=
            Finset.card_erase_of_mem hmemsd
          have h3 : 0 < (g.nodes \ vis).card := Finset.card_pos.mpr ⟨id, hmemsd⟩
          rw [h1, h2]
          omega
        by_cases hkey : (g.fields id).any (fun kv => DANGEROUS_PROPERTIES.contains kv.1)
        · refine ⟨true, insert id vis, ?_, Finset.subset_insert _ _, ?_⟩
          · simp only [scanG]
            rw [if_neg (by push_neg; exact ⟨hin, hnot⟩), if_pos hkey]
          · intro x hx
            rcases Finset.mem_insert.mp hx with hx2 | hx2
            · exact hx2 ▸ Finset.mem_union_right _ hin
            · exact Finset.mem_union_left _ hx2
        · obtain ⟨b2, vis2, heq, hsub1, hsub2⟩ :=
            scanG_foldl_some g f ih (g.fields id) false (insert id vis) hcard
          refine ⟨b2, vis2, ?_, (Finset.subset_insert _ _).trans hsub1, ?_⟩
          · simp only [scanG]
            rw [if_neg (by push_neg; exact ⟨hin, hnot⟩), if_neg hkey]
            exact heq
          · intro x hx
            have := hsub2 hx
            rw [hins] at this
            exact this

/-- On an already-visited node the scan answers `false` with the visited
set unchanged, without recursing. -/
theorem scanG_revisit (g : ObjGraph) (fuel : Nat) (id : Nat)
    (vis : Finset Nat) (h : id ∈ vis) :
    scanG g (fuel + 1) id vis = some (false, vis) := by
  simp only [scanG]
  rw [if_pos (Or.inr h)]

/-! ### Claim theorems -/

/-- C1: for every input value (of any type) and every options record, each
security-primitive validator (`validateText`, `validateJson`, `validateIp`,
`validateEmail`, `validateObject`) is a total function into the
`SchemaValidationResult` shape — the embeddings are total Lean functions,
never raising for invalid data — and every failed result carries at least
one error.  The external parse / AJV / schema delegates are arbitrary,
subject only to the delegates themselves returning well-formed results. -/
theorem c1_validators_total
    (value : Value) (timedOutT timedOutJ : Bool)
    (tOpts : TextOptions) (jOpts : JsonOptions) (iOpts : IpOptions)
    (eOpts : EmailOptions) (oOpts : ObjectOptions)
    (parse : String → Option Value) (ajvOk : Value → Bool)
    (hj : ∀ d, jOpts.schema = some d → ∀ x, wfResult (d x))
    (ho : ∀ d, oOpts.schema = some d → ∀ x, wfResult (d x)) :
    wfResult (validateText timedOutT value tOpts) ∧
    wfResult (validateJson timedOutJ parse ajvOk value jOpts) ∧
    wfResult (validateIp value iOpts) ∧
    wfResult (validateEmail value eOpts) ∧
    wfResult (validateObject value oOpts) :=
  ⟨wf_validateText timedOutT value tOpts,
   wf_validateJson timedOutJ parse ajvOk value jOpts hj,
   wf_validateIp value iOpts,
   wf_validateEmail value eOpts,
   wf_validateObject value oOpts ho⟩

/-- C1 witness: the totality statement at a concrete value and concrete
options/delegates. -/
theorem c1_witness :
    wfResult (validateText false (Value.vStr "x") {}) ∧
    wfResult (validateJson false (fun _ => none) (fun _ => true) (Value.vStr "x") {}) ∧
    wfResult (validateIp (Value.vStr "x") {}) ∧
    wfResult (validateEmail (Value.vStr "x") {}) ∧
    wfResult (validateObject (Value.vStr "x") {}) :=
  c1_validators_total (Value.vStr "x") false false {} {} {} {} {}
    (fun _ => none) (fun _ => true)
    (fun _ hd => nomatch hd) (fun _ hd => nomatch hd)

/-- C2: for every string whose length exceeds the configured `maxLength`,
`validateTextSync` returns exactly one error — the length violation with
code `STRING_TOO_LONG` — no warnings, and untouched data: the size guard
short-circuits before the trim, normalization and every pattern stage. -/
theorem c2_maxlength_short_circuit (s : String) (o : TextOptions)
    (h : jsLength s > o.maxLength) :
    validateTextSync (Value.vStr s) o =
      { success := false
        errors := [createStringError []
          ("Text exceeds maximum length of " ++ toString o.maxLength ++ " characters")
          (Value.vStr s) ErrorCode.STRING_TOO_LONG]
        warnings := [], data := Value.vStr s } := by
  simp only [validateTextSync]
  split
  · rfl
  · omega

/-- C2 witness: a length-5 string against `maxLength = 2`, with
whitespace-trimming requested — the result is still the bare length error. -/
theorem c2_witness :
    jsLength " abcd" > ({ maxLength := 2, trimWhitespace := true } : TextOptions).maxLength ∧
    validateTextSync (Value.vStr " abcd") { maxLength := 2, trimWhitespace := true } =
      { success := false
        errors := [createStringError []
          ("Text exceeds maximum length of "
            ++ toString ({ maxLength := 2, trimWhitespace := true } : TextOptions).maxLength
            ++ " characters")
          (Value.vStr " abcd") ErrorCode.STRING_TOO_LONG]
        warnings := [], data := Value.vStr " abcd" } :=
  ⟨by decide,
   c2_maxlength_short_circuit " abcd" { maxLength := 2, trimWhitespace := true } (by decide)⟩

/-- C3 counterexample: `validateEmail` fails on `"A..B@Example.com"`
(consecutive dots) yet returns the trimmed, lower-cased string as `data`,
not the caller's original string — refuting the claim that a failing
primitive call leaves `data` equal to the original input. -/
theorem c3_counterexample :
    (validateEmail (Value.vStr "A..B@Example.com") {}).success = false ∧
    (validateEmail (Value.vStr "A..B@Example.com") {}).data
      = Value.vStr "a..b@example.com" ∧
    ("a..b@example.com" : String) ≠ "A..B@Example.com" :=
  ⟨by decide, by rfl, by decide⟩

/-- The final `result.data = email` assignment of the pipeline. -/
theorem emailChecks_data (o : EmailOptions) (value : Value)
    (email locPart domain : String) :
    (emailChecks o value email locPart domain).data = Value.vStr email := rfl

/-- C3 as amended: on every path of `validateEmail` that reaches the
per-part checks — failing or succeeding — `data` is replaced by the
trimmed lower-cased email; only the early-return failures (over-length
input, wrong `@` count, and likewise the non-string and empty-part cases)
leave `data` as the caller's original value. -/
theorem c3_amended_data_policy (s : String) (o : EmailOptions) :
    (jsLength (emailNorm s) ≤ o.maxLength →
     emailAtCount (emailNorm s) = 1 →
     emailLocalPart (emailNorm s) ≠ "" →
     emailDomainPart (emailNorm s) ≠ "" →
     (validateEmail (Value.vStr s) o).data = Value.vStr (emailNorm s)) ∧
    (jsLength (emailNorm s) > o.maxLength →
     (validateEmail (Value.vStr s) o).data = Value.vStr s) ∧
    (jsLength (emailNorm s) ≤ o.maxLength →
     emailAtCount (emailNorm s) ≠ 1 →
     (validateEmail (Value.vStr s) o).data = Value.vStr s) := by
  refine ⟨?_, ?_, ?_⟩
  · intro h1 h2 h3 h4
    simp only [validateEmail]
    split
    · omega
    · split
      · next hat => simp at hat; exact absurd h2 hat
      · split
        · next hemp =>
            simp at hemp
            rcases hemp with hemp | hemp
            · exact absurd hemp h3
            · exact absurd hemp h4
        · exact emailChecks_data o _ _ _ _
  · intro h1
    simp only [validateEmail]
    split
    · rfl
    · omega
  · intro h1 h2
    simp only [validateEmail]
    split
    · omega
    · split
      · rfl
      · next hat => simp at hat; exact absurd hat h2

/-- C3 amended witness: a failing address (plus sign) whose `data` comes
back trimmed and lower-cased. -/
theorem c3_amended_witness :
    (validateEmail (Value.vStr "A+b@Example.com") {}).data
      = Value.vStr (emailNorm "A+b@Example.com") :=
  (c3_amended_data_policy "A+b@Example.com" {}).1
    (by decide) (by decide) (by decide) (by decide)

/-- C4: for every email that passes the early guards and whose local part
contains a plus sign, `validateEmail` fails regardless of `strict`: the
strict local-part character class itself admits the plus sign, but the
separate unconditional plus-addressing rule fires, and no later stage can
reset `success` — both checks are present and the rejecting one wins. -/
theorem c4_plus_addressing_rejected (s : String) (o : EmailOptions)
    (h1 : jsLength (emailNorm s) ≤ o.maxLength)
    (h2 : emailAtCount (emailNorm s) = 1)
    (h3 : emailLocalPart (emailNorm s) ≠ "")
    (h4 : emailDomainPart (emailNorm s) ≠ "")
    (h5 : strContainsChar (emailLocalPart (emailNorm s)) '+' = true) :
    (validateEmail (Value.vStr s) o).success = false ∧
    createValidationError [] "Plus addressing (+ symbols) is not allowed"
      ErrorCode.SECURITY_VIOLATION ∈ (validateEmail (Value.vStr s) o).errors ∧
    strictLocalChar '+' = true := by
  have hbody : validateEmail (Value.vStr s) o =
      emailChecks o (Value.vStr s) (emailNorm s)
        (emailLocalPart (emailNorm s)) (emailDomainPart (emailNorm s)) := by
    simp only [validateEmail]
    split
    · omega
    · split
      · next hat => simp at hat; exact absurd h2 hat
      · split
        · next hemp =>
            simp at hemp
            rcases hemp with hemp | hemp
            · exact absurd hemp h3
            · exact absurd hemp h4
        · rfl
  rw [hbody]
  exact ⟨emailChecks_plus_false _ _ _ _ _ h5, emailChecks_plus_mem _ _ _ _ _ h5, by decide⟩

/-- C4 witness: `"a+b@example.com"` with `strict = false`. -/
theorem c4_witness :
    (validateEmail (Value.vStr "a+b@example.com") { strict := false }).success = false ∧
    createValidationError [] "Plus addressing (+ symbols) is not allowed"
      ErrorCode.SECURITY_VIOLATION
      ∈ (validateEmail (Value.vStr "a+b@example.com") { strict := false }).errors ∧
    strictLocalChar '+' = true :=
  c4_plus_addressing_rejected "a+b@example.com" { strict := false }
    (by decide) (by decide) (by decide) (by decide) (by decide)

/-- C5 counterexample: `validateIp "300.1.1.1"` with default options does
fail, but its sole error carries code `SECURITY_VIOLATION`, not the
`InvalidFormat` code the claim requires. -/
theorem c5_counterexample :
    (validateIp (Value.vStr "300.1.1.1") {}).success = false ∧
    (validateIp (Value.vStr "300.1.1.1") {}).errors.map (fun e => e.code)
      = [ErrorCode.SECURITY_VIOLATION] ∧
    ErrorCode.SECURITY_VIOLATION ≠ ErrorCode.INVALID_FORMAT := by
  refine ⟨by decide, by decide, by decide⟩

/-- C5 as amended: `"10.0.0.1"` with `allowPrivate = false` fails with
exactly the private-address `SECURITY_VIOLATION`; `"8.8.8.8"` with default
options succeeds with no errors; `"300.1.1.1"` fails with exactly one
error, the invalid-format message, carried under code `SECURITY_VIOLATION`
(every error `validateIp` emits uses that code). -/
theorem c5_amended_ip_policy :
    (validateIp (Value.vStr "10.0.0.1") { allowPrivate := false }).success = false ∧
    (validateIp (Value.vStr "10.0.0.1") { allowPrivate := false }).errors.map
      (fun e => e.message) = ["Private IPv4 addresses not allowed"] ∧
    (validateIp (Value.vStr "10.0.0.1") { allowPrivate := false }).errors.map
      (fun e => e.code) = [ErrorCode.SECURITY_VIOLATION] ∧
    (validateIp (Value.vStr "8.8.8.8") {}).success = true ∧
    (validateIp (Value.vStr "8.8.8.8") {}).errors.length = 0 ∧
    (validateIp (Value.vStr "300.1.1.1") {}).success = false ∧
    (validateIp (Value.vStr "300.1.1.1") {}).errors.map (fun e => e.message)
      = ["Invalid IP address format (must be valid IPv4 or IPv6)"] ∧
    (validateIp (Value.vStr "300.1.1.1") {}).errors.map (fun e => e.code)
      = [ErrorCode.SECURITY_VIOLATION] := by
  refine ⟨by decide, by decide, by decide, by decide, by decide, by decide, by decide, by decide⟩

/-- C6 counterexample: with the pollution guard disabled,
`validateObject {"__proto__": {}}` still fails — the unconditional per-key
dangerous-name check rejects `__proto__` — refuting the claim that the
input succeeds once `preventPrototypePollution = false`. -/
theorem c6_counterexample :
    (validateObject (Value.vObj [("__proto__", Value.vObj [])])
      { preventPrototypePollution := false }).success = false := by
  decide

/-- C6 as amended: with `preventPrototypePollution = true` the input fails
with the pollution `SECURITY_VIOLATION`; with the guard disabled it still
fails, now with the per-key dangerous-property-name `SECURITY_VIOLATION`
from the unconditional key loop. -/
theorem c6_amended_pollution_gate :
    (validateObject (Value.vObj [("__proto__", Value.vObj [])]) {}).success = false ∧
    (validateObject (Value.vObj [("__proto__", Value.vObj [])]) {}).errors.map
      (fun e => e.code) = [ErrorCode.SECURITY_VIOLATION] ∧
    (validateObject (Value.vObj [("__proto__", Value.vObj [])]) {}).errors.map
      (fun e => e.message)
      = ["Object contains dangerous properties that could lead to prototype pollution"] ∧
    (validateObject (Value.vObj [("__proto__", Value.vObj [])])
      { preventPrototypePollution := false }).success = false ∧
    (validateObject (Value.vObj [("__proto__", Value.vObj [])])
      { preventPrototypePollution := false }).errors.map (fun e => e.code)
      = [ErrorCode.SECURITY_VIOLATION] ∧
    (validateObject (Value.vObj [("__proto__", Value.vObj [])])
      { preventPrototypePollution := false }).errors.map (fun e => e.message)
      = ["Dangerous property name detected: __proto__"] := by
  refine ⟨by decide, by decide, by decide, by decide, by decide, by decide⟩

/-- C7: seven items with `maxConcurrency = 3` are partitioned into exactly
the windows (3, 3, 1) in input order; and with `continueOnError = false`,
when window 1 is failure-free and window 2 contains a failure, the results
are exactly the six results of windows 1 and 2 — the triggering window
completes in full and window 3 contributes nothing. -/
theorem c7_batch_windows (v0 v1 v2 v3 v4 v5 v6 : Value)
    (f : Value → SchemaValidationResult) :
    chunkWindows 3 [v0, v1, v2, v3, v4, v5, v6]
      = [[v0, v1, v2], [v3, v4, v5], [v6]] ∧
    ((([v0, v1, v2].map f).all (fun r => r.success) = true) →
     (([v3, v4, v5].map f).any (fun r => !r.success) = true) →
     validateBatchResults [v0, v1, v2, v3, v4, v5, v6] f false 3
       = [v0, v1, v2, v3, v4, v5].map f) := by
  constructor
  · rfl
  · intro h1 h2
    simp only [List.map, List.all_cons, List.all_nil, Bool.and_true,
      Bool.and_eq_true] at h1
    obtain ⟨ha, hb, hc⟩ := h1
    simp only [validateBatchResults, chunkWindows, chunkGo, runWindows,
      List.length_cons, List.length_nil, List.take, List.drop, List.map,
      List.any_cons, List.any_nil, Bool.or_false, Bool.not_false,
      Bool.true_and, ha, hb, hc, Bool.not_true, Bool.false_or] at h2 ⊢
    simp [h2]

/-- C7 witness: seven numbered items and a validator that fails exactly on
values at least 3 — window 1 passes, window 2 fails. -/
theorem c7_witness :
    chunkWindows 3
      [Value.vNum 0, Value.vNum 1, Value.vNum 2, Value.vNum 3,
       Value.vNum 4, Value.vNum 5, Value.vNum 6]
      = [[Value.vNum 0, Value.vNum 1, Value.vNum 2],
         [Value.vNum 3, Value.vNum 4, Value.vNum 5], [Value.vNum 6]] ∧
    validateBatchResults
      [Value.vNum 0, Value.vNum 1, Value.vNum 2, Value.vNum 3,
       Value.vNum 4, Value.vNum 5, Value.vNum 6]
      (fun v => { success := (match v with
                    | Value.vNum n => decide (n < 3)
                    | _ => true)
                  errors := [], warnings := [], data := v }) false 3
      = [Value.vNum 0, Value.vNum 1, Value.vNum 2, Value.vNum 3,
         Value.vNum 4, Value.vNum 5].map
          (fun v => { success := (match v with
                        | Value.vNum n => decide (n < 3)
                        | _ => true)
                      errors := [], warnings := [], data := v }) :=
  ⟨(c7_batch_windows (Value.vNum 0) (Value.vNum 1) (Value.vNum 2) (Value.vNum 3)
      (Value.vNum 4) (Value.vNum 5) (Value.vNum 6)
      (fun v => { success := (match v with
                    | Value.vNum n => decide (n < 3)
                    | _ => true)
                  errors := [], warnings := [], data := v })).1,
   (c7_batch_windows (Value.vNum 0) (Value.vNum 1) (Value.vNum 2) (Value.vNum 3)
      (Value.vNum 4) (Value.vNum 5) (Value.vNum 6)
      (fun v => { success := (match v with
                    | Value.vNum n => decide (n < 3)
                    | _ => true)
                  errors := [], warnings := [], data := v })).2 (by decide) (by decide)⟩

/-- C8: the timeout catch-branch of `validateBatch` is meant to align each
synthesized result with its input position, but the push loop reads
`values[results.length + i]` while `results` is growing, so the position-4
result of a 7-item batch timed out after 3 produced results carries
`values[5]` — not `values[4]` — and positions 5 and 6 read past the end of
the input (`undefined`).  This evaluates the synthesis loop at that failing
input, exhibiting the misalignment the claim rules out. -/
theorem c8_timeout_misalignment :
    (synthesizeTimeouts
      [Value.vNum 0, Value.vNum 1, Value.vNum 2, Value.vNum 3,
       Value.vNum 4, Value.vNum 5, Value.vNum 6]
      [initResult (Value.vNum 0), initResult (Value.vNum 1),
       initResult (Value.vNum 2)]).length = 7 ∧
    ((synthesizeTimeouts
      [Value.vNum 0, Value.vNum 1, Value.vNum 2, Value.vNum 3,
       Value.vNum 4, Value.vNum 5, Value.vNum 6]
      [initResult (Value.vNum 0), initResult (Value.vNum 1),
       initResult (Value.vNum 2)]).getD 4 (initResult Value.vNull)).data
      = Value.vNum 5 ∧
    (Value.vNum 5 = Value.vNum 4 → False) ∧
    ((synthesizeTimeouts
      [Value.vNum 0, Value.vNum 1, Value.vNum 2, Value.vNum 3,
       Value.vNum 4, Value.vNum 5, Value.vNum 6]
      [initResult (Value.vNum 0), initResult (Value.vNum 1),
       initResult (Value.vNum 2)]).getD 5 (initResult Value.vNull)).data
      = Value.vUndef ∧
    ((synthesizeTimeouts
      [Value.vNum 0, Value.vNum 1, Value.vNum 2, Value.vNum 3,
       Value.vNum 4, Value.vNum 5, Value.vNum 6]
      [initResult (Value.vNum 0), initResult (Value.vNum 1),
       initResult (Value.vNum 2)]).getD 4 (initResult Value.vNull)).success
      = false := by
  refine ⟨by rfl, by rfl, ?_, by rfl, by rfl⟩
  intro h
  injection h with h2
  exact absurd h2 (by decide)

/-- C9: the pollution scanner terminates on every object graph, cyclic
graphs included: fuel one past the number of not-yet-visited nodes always
yields a result (the recursion is well-founded on the set of unvisited
nodes), and a revisited node is answered `false` immediately with the
visited set unchanged instead of being recursed into. -/
theorem c9_scanner_terminates (g : ObjGraph) (id : Nat) (visited : Finset Nat) :
    (∃ b vis2, scanG g ((g.nodes \ visited).card + 1) id visited = some (b, vis2)) ∧
    (id ∈ visited →
      scanG g ((g.nodes \ visited).card + 1) id visited = some (false, visited)) := by
  constructor
  · obtain ⟨b, vis2, heq, _, _⟩ :=
      scanG_some g ((g.nodes \ visited).card + 1) id visited (Nat.lt_succ_self _)
    exact ⟨b, vis2, heq⟩
  · intro h
    exact scanG_revisit g _ id visited h

/-- C9 witness: a one-node heap with a self-loop
(`node 0` holds a reference back to itself), scanned from `node 0` with
`node 0` already visited. -/
theorem c9_witness :
    (∃ b vis2,
      scanG ⟨{0}, fun _ => [("self", GVal.ref 0)]⟩
        ((((⟨{0}, fun _ => [("self", GVal.ref 0)]⟩ : ObjGraph).nodes \ {0}).card) + 1)
        0 {0} = some (b, vis2)) ∧
    scanG ⟨{0}, fun _ => [("self", GVal.ref 0)]⟩
      ((((⟨{0}, fun _ => [("self", GVal.ref 0)]⟩ : ObjGraph).nodes \ {0}).card) + 1)
      0 {0} = some (false, {0}) :=
  ⟨(c9_scanner_terminates ⟨{0}, fun _ => [("self", GVal.ref 0)]⟩ 0 {0}).1,
   (c9_scanner_terminates ⟨{0}, fun _ => [("self", GVal.ref 0)]⟩ 0 {0}).2 (by decide)⟩

/-- C10: an array input with `allowArray = true`, and a null input with
`allowNull = true`, make `validateObject` return immediately with the
pristine result — `success = true`, no errors, no warnings, `data`
identical to the input — skipping the pollution scan, key checks and deep
walk entirely. -/
theorem c10_allowed_array_null_early_return (es : List Value)
    (o1 o2 : ObjectOptions) (h1 : o1.allowArray = true) (h2 : o2.allowNull = true) :
    validateObject (Value.vArr es) o1 = initResult (Value.vArr es) ∧
    validateObject Value.vNull o2 = initResult Value.vNull := by
  constructor
  · simp [validateObject, h1]
  · simp [validateObject, h2]

/-- C10 witness: a one-element array and null against options enabling
them. -/
theorem c10_witness :
    validateObject (Value.vArr [Value.vNum 1]) { allowArray := true }
      = initResult (Value.vArr [Value.vNum 1]) ∧
    validateObject Value.vNull { allowNull := true } = initResult Value.vNull :=
  c10_allowed_array_null_early_return [Value.vNum 1]
    { allowArray := true } { allowNull := true } (by rfl) (by rfl)
